import Mathlib

/-!
# Verification of the KijkoCut timeline/playback engine

Shallow embedding of the timeline model, transport controller, active-clip
resolver, drop handler and trim gestures of the center-panel editor
(`App.tsx` / `CenterPanel.tsx`).  JavaScript numbers are modelled as `ℚ`
(all arithmetic in the verified scenarios is exact), the possibly-undefined
`duration` field as `Option ℚ`, and `Array.prototype.sort` (stable, by the
`a.startTime - b.startTime` comparator) as stable insertion sort by
`startTime`.
-/

namespace KijkoCut

/-- Media kind tag (`'image' | 'video' | 'audio'` in `types.ts`). -/
inductive MediaKind where
  | image
  | video
  | audio
deriving DecidableEq, Repr

/-- A library asset (`MediaAsset`): the fields the timeline logic reads.
`duration` is `Option ℚ` because `duration?: number` may be undefined
until resolved. -/
structure MediaAsset where
  id : String
  kind : MediaKind
  url : String
  duration : Option ℚ
deriving DecidableEq, Repr

/-- A placed timeline clip (`TimelineAsset` = `MediaAsset` plus placement
fields assigned by `handleDropOnTimeline`). -/
structure TimelineAsset where
  id : String
  kind : MediaKind
  url : String
  duration : Option ℚ
  timelineId : String
  startTime : ℚ
  trimStart : ℚ
  trimEnd : ℚ
deriving DecidableEq, Repr

/-- `(asset.duration || 0)`: JavaScript `||` yields `0` when `duration`
is `undefined` (and also when it is `0`, which coincides with `getD 0`). -/
def durOrZero (a : TimelineAsset) : ℚ :=
  a.duration.getD 0

/-- `effectiveDuration = (asset.duration || 0) - asset.trimStart - asset.trimEnd`
(computed identically at `App.tsx:387`, `App.tsx:398` and `App.tsx:585`). -/
def effectiveDuration (a : TimelineAsset) : ℚ :=
  durOrZero a - a.trimStart - a.trimEnd

/-- The timeline sort order used by every mutation:
`sort((a, b) => a.startTime - b.startTime)`. -/
def startLE (a b : TimelineAsset) : Prop :=
  a.startTime ≤ b.startTime

instance : DecidableRel startLE :=
  fun a b => inferInstanceAs (Decidable (a.startTime ≤ b.startTime))

instance : IsTotal TimelineAsset startLE :=
  ⟨fun a b => le_total a.startTime b.startTime⟩

instance : IsTrans TimelineAsset startLE :=
  ⟨fun _ _ _ h1 h2 => le_trans h1 h2⟩

/-- Stable sort by `startTime` (JavaScript `Array.prototype.sort` is
stable, so stable insertion sort by the same key is a faithful model). -/
def sortByStart (l : List TimelineAsset) : List TimelineAsset :=
  l.insertionSort startLE

/-- `totalDuration` (`App.tsx:385-390`):
`Math.max(15, timelineAssets.reduce((max, asset) => Math.max(max, asset.startTime + effectiveDuration), 0))`. -/
def totalDuration (timelineAssets : List TimelineAsset) : ℚ :=
  max 15 (timelineAssets.foldl (fun m a => max m (a.startTime + effectiveDuration a)) 0)

/-- The value a preview/active slot can hold
(`previewAsset : MediaAsset | TimelineAsset`, discriminated at runtime by
the presence of `timelineId`). -/
inductive PreviewAsset where
  | library (a : MediaAsset)
  | timeline (a : TimelineAsset)
deriving DecidableEq, Repr

/-- Predicate of the active-clip search (`App.tsx:397-400`):
`currentTime >= asset.startTime && currentTime < asset.startTime + effectiveDuration`. -/
def isPlayingAt (currentTime : ℚ) (a : TimelineAsset) : Bool :=
  decide (a.startTime ≤ currentTime ∧ currentTime < a.startTime + effectiveDuration a)

/-- `activeAsset` (`App.tsx:392-404`): an explicitly selected timeline clip
wins; otherwise the first clip (in list order) containing `currentTime`;
otherwise the library preview asset. -/
def activeAsset (previewAsset : Option PreviewAsset)
    (timelineAssets : List TimelineAsset) (currentTime : ℚ) : Option PreviewAsset :=
  match previewAsset with
  | some (.timeline a) => some (.timeline a)
  | _ =>
    match timelineAssets.find? (isPlayingAt currentTime) with
    | some a => some (.timeline a)
    | none => previewAsset

/-- In-source offset of the active timeline clip (`App.tsx:430`):
`effectiveTime = currentTime - timelineAsset.startTime + timelineAsset.trimStart`. -/
def effectiveTime (currentTime : ℚ) (a : TimelineAsset) : ℚ :=
  currentTime - a.startTime + a.trimStart

/-! ## Timeline mutations (`App.tsx:94-136`) -/

/-- `Partial<TimelineAsset>`: each field optionally present; `{...asset, ...updates}`
overrides exactly the present fields. -/
structure TimelineAssetUpdate where
  id : Option String := none
  kind : Option MediaKind := none
  url : Option String := none
  duration : Option (Option ℚ) := none
  timelineId : Option String := none
  startTime : Option ℚ := none
  trimStart : Option ℚ := none
  trimEnd : Option ℚ := none
deriving Repr

/-- JavaScript spread merge `{ ...asset, ...updates }`. -/
def applyUpdates (a : TimelineAsset) (u : TimelineAssetUpdate) : TimelineAsset where
  id := u.id.getD a.id
  kind := u.kind.getD a.kind
  url := u.url.getD a.url
  duration := u.duration.getD a.duration
  timelineId := u.timelineId.getD a.timelineId
  startTime := u.startTime.getD a.startTime
  trimStart := u.trimStart.getD a.trimStart
  trimEnd := u.trimEnd.getD a.trimEnd

/-- The state-update step of placement (`App.tsx:116-120`): append the new
clip, then re-sort by `startTime`. -/
def placeClip (newTimelineAsset : TimelineAsset) (prev : List TimelineAsset) :
    List TimelineAsset :=
  sortByStart (prev ++ [newTimelineAsset])

/-- `handleUpdateTimelineAsset` (`App.tsx:128-132`): merge `updates` into the
clip named by `timelineId`, leave every other clip as-is, then re-sort. -/
def handleUpdateTimelineAsset (timelineId : String) (updates : TimelineAssetUpdate)
    (prev : List TimelineAsset) : List TimelineAsset :=
  sortByStart (prev.map fun asset =>
    if asset.timelineId = timelineId then applyUpdates asset updates else asset)

/-- `handleRemoveFromTimeline` (`App.tsx:134-136`):
`prev.filter(a => a.timelineId !== timelineId)`. -/
def handleRemoveFromTimeline (timelineId : String) (prev : List TimelineAsset) :
    List TimelineAsset :=
  prev.filter fun a => a.timelineId ≠ timelineId

/-! ## Drop handler (`App.tsx:94-126`)

`handleDropOnTimeline` parses the drag payload, and for a `libraryAsset`
payload resolves the asset's duration if unknown and inserts a new clip.
The whole body is wrapped in `try/catch`; the `catch` only logs, leaving
state untouched.  The outcome of `JSON.parse` (a host function) and of the
asynchronous `getMediaDuration` promise are inputs of the model: `parsed`
is `Except.error` when the payload string is not valid JSON, and `resolve`
is `Except.error` when metadata loading rejects (`.ok none` models a
resolution that yields no number). -/

/-- The destructured payload `{ type, assetId }` of a successful `JSON.parse`. -/
structure DropPayload where
  ptype : String
  assetId : String
deriving DecidableEq, Repr

/-- The two state collections touched by the drop handler. -/
structure DropState where
  libraryAssets : List MediaAsset
  timelineAssets : List TimelineAsset
deriving DecidableEq, Repr

/-- The duration-resolution step of the drop handler (`App.tsx:100-105`):
keep a known duration, otherwise await `getMediaDuration` (whose rejection
propagates) and cache the result on the matching library asset. -/
def resolveDropDuration (assetToAdd : MediaAsset) (assetId : String)
    (resolve : Except String (Option ℚ)) (libraryAssets : List MediaAsset) :
    Except String (Option ℚ × List MediaAsset) :=
  match assetToAdd.duration with
  | some d => .ok (some d, libraryAssets)
  | none =>
    match resolve with
    | .error e => .error e
    | .ok d => .ok (d, libraryAssets.map fun a =>
        if a.id = assetId then { a with duration := d } else a)

/-- The `try` body of `handleDropOnTimeline`: any `throw` (parse failure,
metadata rejection, undefined duration) surfaces as `Except.error`. -/
def handleDropBody (parsed : Except String DropPayload)
    (resolve : Except String (Option ℚ)) (newTimelineId : String)
    (dropTime : ℚ) (st : DropState) : Except String DropState :=
  match parsed with
  | .error e => .error e
  | .ok p =>
    if p.ptype = "libraryAsset" then
      match st.libraryAssets.find? (fun a => a.id = p.assetId) with
      | some assetToAdd =>
        match resolveDropDuration assetToAdd p.assetId resolve st.libraryAssets with
        | .error e => .error e
        | .ok (none, _) => .error "Could not determine asset duration."
        | .ok (some d, lib) =>
          let newTimelineAsset : TimelineAsset :=
            { id := assetToAdd.id, kind := assetToAdd.kind, url := assetToAdd.url,
              timelineId := newTimelineId, startTime := dropTime,
              duration := some d, trimStart := 0, trimEnd := 0 }
          .ok { libraryAssets := lib,
                timelineAssets := placeClip newTimelineAsset st.timelineAssets }
      | none => .ok st
    else
      .ok st

/-- `handleDropOnTimeline` with its `catch`: on any error the handler logs
and returns with state unchanged, so no exception escapes. -/
def handleDropOnTimeline (parsed : Except String DropPayload)
    (resolve : Except String (Option ℚ)) (newTimelineId : String)
    (dropTime : ℚ) (st : DropState) : DropState :=
  match handleDropBody parsed resolve newTimelineId dropTime st with
  | .ok st2 => st2
  | .error _ => st

/-! ## Transport controller (`CenterPanel`, `App.tsx:441-502`) -/

/-- Transport state: `isPlaying` and `currentTime` (the playhead). -/
structure Transport where
  isPlaying : Bool
  currentTime : ℚ
deriving DecidableEq, Repr

/-- One clock tick while running (`App.tsx:444-451`): if the playhead is
already at or past `totalDuration`, stop and reset to 0, otherwise advance
by 1/60 s. -/
def tick (total : ℚ) (s : Transport) : Transport :=
  if s.currentTime ≥ total then ⟨false, 0⟩ else ⟨s.isPlaying, s.currentTime + 1/60⟩

/-- The playhead-drag move handler (`App.tsx:488-493`):
`newTime = max(0, pointerTime)` then `currentTime := min(newTime, totalDuration)`. -/
def handlePlayheadDrag (total : ℚ) (pointerTime : ℚ) (s : Transport) : Transport :=
  { s with currentTime := min (max 0 pointerTime) total }

/-- The user-visible transport events: the play/pause toggle
(`App.tsx:459`), a clock tick (fires only while playing, `App.tsx:443`),
a playhead drag move, and the seek-to-0 button (`App.tsx:548`). -/
inductive TransportOp where
  | togglePlay
  | tick
  | drag (pointerTime : ℚ)
  | seekZero
deriving Repr

/-- Apply one transport event. -/
def applyOp (total : ℚ) (s : Transport) : TransportOp → Transport
  | .togglePlay => { s with isPlaying := !s.isPlaying }
  | .tick => if s.isPlaying then tick total s else s
  | .drag t => handlePlayheadDrag total t s
  | .seekZero => { s with currentTime := 0 }

/-- Apply a sequence of transport events. -/
def applyOps (total : ℚ) (s : Transport) (ops : List TransportOp) : Transport :=
  ops.foldl (applyOp total) s

/-- Initial transport state: stopped, playhead at 0 (`App.tsx:378-379`). -/
def initTransport : Transport :=
  ⟨false, 0⟩

/-! ## Trim gestures (`TimelineClipItem.handleMouseMove`, `App.tsx:597-613`) -/

/-- Which clip edge is being dragged. -/
inductive ResizeSide where
  | left
  | right
deriving DecidableEq, Repr

/-- One mouse-move frame of an edge drag.  Left edge: propose
`newTrimStart = max(0, trimStart + Δt)` and `newStartTime = startTime + Δt`,
apply only if `newStartTime ≥ 0` and the new effective duration exceeds
0.1 s.  Right edge: propose `newTrimEnd = max(0, trimEnd - Δt)`, apply only
if the new effective duration exceeds 0.1 s.  A rejected frame leaves the
clip unchanged. -/
def handleMouseMove (side : ResizeSide) (asset : TimelineAsset) (deltaTime : ℚ) :
    TimelineAsset :=
  match side with
  | .left =>
    let newTrimStart := max 0 (asset.trimStart + deltaTime)
    let newStartTime := asset.startTime + deltaTime
    if newStartTime ≥ 0 ∧ durOrZero asset - newTrimStart - asset.trimEnd > 1/10 then
      { asset with trimStart := newTrimStart, startTime := newStartTime }
    else asset
  | .right =>
    let newTrimEnd := max 0 (asset.trimEnd - deltaTime)
    if durOrZero asset - asset.trimStart - newTrimEnd > 1/10 then
      { asset with trimEnd := newTrimEnd }
    else asset

/-! ## Theorems -/

/-- Unfolding lemma: with no explicitly selected timeline clip, `activeAsset`
is the first-match search over the clip list (falling back to the preview). -/
theorem activeAsset_of_no_timeline_selection (preview : Option PreviewAsset)
    (l : List TimelineAsset) (t : ℚ)
    (hp : ∀ a : TimelineAsset, preview ≠ some (.timeline a)) :
    activeAsset preview l t =
      match l.find? (isPlayingAt t) with
      | some a => some (.timeline a)
      | none => preview := by
  match preview with
  | none => rfl
  | some (.library a) => rfl
  | some (.timeline a) => exact absurd rfl (hp a)

/-- **C1.** With no timeline clip explicitly selected for preview, the
active-clip resolver returns the first clip in list order satisfying
`startTime ≤ t < startTime + effectiveDuration`, and the in-source offset
reported for it is `t - startTime + trimStart`. -/
theorem c1_active_clip_first_match (preview : Option PreviewAsset)
    (pre post : List TimelineAsset) (c : TimelineAsset) (t : ℚ)
    (hp : ∀ a : TimelineAsset, preview ≠ some (.timeline a))
    (_hsorted : (pre ++ c :: post).Sorted startLE)
    (hc : c.startTime ≤ t ∧ t < c.startTime + effectiveDuration c)
    (hpre : ∀ a ∈ pre, ¬(a.startTime ≤ t ∧ t < a.startTime + effectiveDuration a)) :
    activeAsset preview (pre ++ c :: post) t = some (.timeline c) ∧
    effectiveTime t c = t - c.startTime + c.trimStart := by
  refine ⟨?_, rfl⟩
  rw [activeAsset_of_no_timeline_selection preview _ t hp]
  have hnone : pre.find? (isPlayingAt t) = none := by
    refine List.find?_eq_none.2 fun a ha => ?_
    simpa [isPlayingAt] using hpre a ha
  have hcons : (c :: post).find? (isPlayingAt t) = some c :=
    List.find?_cons_of_pos _ (by simpa [isPlayingAt] using hc)
  rw [List.find?_append, hnone, hcons]
  rfl

/-- Scenario B clip at `startTime = 0`, effective duration 5. -/
def clipB1 : TimelineAsset :=
  { id := "a1", kind := .video, url := "u1", duration := some 5,
    timelineId := "t1", startTime := 0, trimStart := 0, trimEnd := 0 }

/-- Scenario B clip at `startTime = 5`, effective duration 5. -/
def clipB2 : TimelineAsset :=
  { id := "a2", kind := .video, url := "u2", duration := some 5,
    timelineId := "t2", startTime := 5, trimStart := 0, trimEnd := 0 }

/-- Witness for C1 (Scenario B): clips at `startTime = 0` and `startTime = 5`
(effective durations 5), playhead at 7 resolves to the second clip with
in-source offset 2. -/
theorem c1_witness :
    activeAsset none [clipB1, clipB2] 7 = some (.timeline clipB2) ∧
    effectiveTime 7 clipB2 = 2 := by
  have h := c1_active_clip_first_match none [clipB1] [] clipB2 7
    (fun a => by simp)
    (by simp [List.sorted_cons, startLE, clipB1, clipB2])
    (by constructor <;> simp [clipB2, effectiveDuration, durOrZero] <;> norm_num)
    (by
      intro a ha
      simp only [List.mem_singleton] at ha
      subst ha
      simp [clipB1, effectiveDuration, durOrZero]
      norm_num)
  refine ⟨h.1, ?_⟩
  rw [h.2]
  simp [clipB2]
  norm_num

/-- **C2 counterexample.** With an empty timeline (`totalDuration = 15`), a
Running transport at `playheadPosition = 15 - 1/60` does *not* stop on the
next tick: the tick advances the playhead to exactly `totalDuration` and
leaves the transport Running, because the boundary test reads the position
*before* the advance. -/
theorem c2_counterexample :
    tick (totalDuration []) ⟨true, 15 - 1/60⟩ = ⟨true, 15⟩ ∧
    tick (totalDuration []) ⟨true, 15 - 1/60⟩ ≠ ⟨false, 0⟩ := by
  have ht : totalDuration [] = 15 := by
    simp [totalDuration]
  rw [ht]
  constructor
  · rw [tick, if_neg (by norm_num)]
    norm_num
  · rw [tick, if_neg (by norm_num)]
    simp

/-- **C2 (amended).** A tick stops the transport and resets the playhead to
0 exactly when the playhead is already at or past `totalDuration` *before*
advancing; otherwise it advances by 1/60 and keeps running.  Hence a
Running transport at `totalDuration - 1/60` first ticks to exactly
`totalDuration` (still Running), and only the tick after that stops it and
resets the playhead to 0. -/
theorem c2_amended (D p : ℚ) :
    (D ≤ p → tick D ⟨true, p⟩ = ⟨false, 0⟩) ∧
    (p < D → tick D ⟨true, p⟩ = ⟨true, p + 1/60⟩) ∧
    tick D ⟨true, D - 1/60⟩ = ⟨true, D⟩ ∧
    tick D (tick D ⟨true, D - 1/60⟩) = ⟨false, 0⟩ := by
  have hlt : D - 1/60 < D := by linarith
  have hstep : tick D ⟨true, D - 1/60⟩ = ⟨true, D⟩ := by
    rw [tick, if_neg (by simp [not_le.2 hlt])]
    norm_num
  refine ⟨fun h => ?_, fun h => ?_, hstep, ?_⟩
  · rw [tick, if_pos (by simpa using h)]
  · rw [tick, if_neg (by simpa using not_le.2 h)]
  · rw [hstep, tick, if_pos (by simp)]

/-- Witness for C2 (amended), at `D = 15` and `p = 15`: a tick at the
boundary stops and resets, and a tick one sixtieth earlier advances to
exactly 15 while staying Running. -/
theorem c2_witness :
    tick 15 ⟨true, 15⟩ = ⟨false, 0⟩ ∧
    tick 15 ⟨true, 15 - 1/60⟩ = ⟨true, 15⟩ := by
  exact ⟨(c2_amended 15 15).1 le_rfl, (c2_amended 15 15).2.2.1⟩

/-- **C3.** A left-edge trim drag by `Δt` proposes
`newTrimStart = max(0, trimStart + Δt)` and `newStartTime = startTime + Δt`;
the update is applied exactly when `newStartTime ≥ 0` and
`intrinsicDuration - newTrimStart - trimEnd > 0.1`, and otherwise the clip
is completely unchanged for that frame. -/
theorem c3_trim_left (asset : TimelineAsset) (deltaTime : ℚ) :
    (asset.startTime + deltaTime ≥ 0 ∧
        durOrZero asset - max 0 (asset.trimStart + deltaTime) - asset.trimEnd > 1/10 →
      handleMouseMove .left asset deltaTime =
        { asset with trimStart := max 0 (asset.trimStart + deltaTime),
                     startTime := asset.startTime + deltaTime }) ∧
    (¬(asset.startTime + deltaTime ≥ 0 ∧
        durOrZero asset - max 0 (asset.trimStart + deltaTime) - asset.trimEnd > 1/10) →
      handleMouseMove .left asset deltaTime = asset) := by
  constructor
  · intro h
    rw [handleMouseMove, if_pos h]
  · intro h
    rw [handleMouseMove, if_neg h]

/-- Scenario C clip: `intrinsicDuration = 10`, `trimStart = trimEnd = 0`,
`startTime = 2`. -/
def clipC : TimelineAsset :=
  { id := "a3", kind := .video, url := "u3", duration := some 10,
    timelineId := "t3", startTime := 2, trimStart := 0, trimEnd := 0 }

/-- Witness for C3 (Scenario C): dragging the left edge of `clipC` by
`Δt = +3` yields `trimStart = 3`, `startTime = 5`, effective duration 7;
from that state, a further `Δt = +6.95` (which would leave effective
duration 0.05) is rejected with the clip unchanged. -/
theorem c3_witness :
    handleMouseMove .left clipC 3 = { clipC with trimStart := 3, startTime := 5 } ∧
    effectiveDuration (handleMouseMove .left clipC 3) = 7 ∧
    handleMouseMove .left { clipC with trimStart := 3, startTime := 5 } (6.95) =
      { clipC with trimStart := 3, startTime := 5 } := by
  have h1 := (c3_trim_left clipC 3).1 (by
    constructor
    · simp [clipC]
      norm_num
    · simp [clipC, durOrZero]
      norm_num)
  have h2 := (c3_trim_left { clipC with trimStart := 3, startTime := 5 } (6.95)).2 (by
    intro h
    have hd := h.2
    simp [clipC, durOrZero] at hd
    norm_num at hd)
  refine ⟨?_, ?_, h2⟩
  · rw [h1]
    simp [clipC]
    norm_num
  · rw [h1]
    simp [clipC, effectiveDuration, durOrZero]
    norm_num

/-- **C4.** Every timeline mutation leaves the clip collection sorted by
`startTime` ascending: placement and update re-sort unconditionally, and
removal (a filter) preserves an existing sort order. -/
theorem c4_sorted_after_mutation (prev : List TimelineAsset)
    (newTimelineAsset : TimelineAsset) (timelineId : String)
    (updates : TimelineAssetUpdate) (h : prev.Sorted startLE) :
    (placeClip newTimelineAsset prev).Sorted startLE ∧
    (handleUpdateTimelineAsset timelineId updates prev).Sorted startLE ∧
    (handleRemoveFromTimeline timelineId prev).Sorted startLE := by
  refine ⟨List.sorted_insertionSort startLE _, List.sorted_insertionSort startLE _, ?_⟩
  exact List.Pairwise.filter _ h

/-- Witness for C4: the mutations applied to the sorted two-clip timeline
of Scenario B (drop of `clipC`, update of `"t1"`, removal of `"t1"`) all
yield sorted collections. -/
theorem c4_witness :
    (placeClip clipC [clipB1, clipB2]).Sorted startLE ∧
    (handleUpdateTimelineAsset "t1" { startTime := some 9 } [clipB1, clipB2]).Sorted startLE ∧
    (handleRemoveFromTimeline "t1" [clipB1, clipB2]).Sorted startLE :=
  c4_sorted_after_mutation [clipB1, clipB2] clipC "t1" { startTime := some 9 }
    (by simp [List.sorted_cons, startLE, clipB1, clipB2])

/-- The aggregate folded by `totalDuration`'s `reduce`. -/
theorem foldl_max_characterization (f : TimelineAsset → ℚ) :
    ∀ (l : List TimelineAsset) (init : ℚ),
      init ≤ l.foldl (fun m a => max m (f a)) init ∧
      (∀ a ∈ l, f a ≤ l.foldl (fun m a => max m (f a)) init) ∧
      (l.foldl (fun m a => max m (f a)) init = init ∨
        ∃ a ∈ l, l.foldl (fun m a => max m (f a)) init = f a)
  | [], init => by simp
  | b :: l, init => by
    obtain ⟨h1, h2, h3⟩ := foldl_max_characterization f l (max init (f b))
    refine ⟨le_trans (le_max_left _ _) h1, ?_, ?_⟩
    · intro a ha
      rcases List.mem_cons.1 ha with rfl | ha
      · exact le_trans (le_max_right _ _) h1
      · exact h2 a ha
    · rcases h3 with h3 | ⟨a, ha, h3⟩
      · rcases max_choice init (f b) with hm | hm
        · exact Or.inl (by rw [List.foldl_cons, h3, hm])
        · exact Or.inr ⟨b, List.mem_cons_self b l, by rw [List.foldl_cons, h3, hm]⟩
      · exact Or.inr ⟨a, List.mem_cons_of_mem b ha, h3⟩

/-- **C5.** `totalDuration` is `max(15, max over clips of
startTime + effectiveDuration)`: it is at least 15 (exactly 15 on an empty
timeline), bounds `startTime + effectiveDuration` for every clip, and is
either the 15-second floor or attained by some clip. -/
theorem c5_totalDuration (timelineAssets : List TimelineAsset) :
    15 ≤ totalDuration timelineAssets ∧
    (∀ a ∈ timelineAssets,
      a.startTime + effectiveDuration a ≤ totalDuration timelineAssets) ∧
    (totalDuration timelineAssets = 15 ∨
      ∃ a ∈ timelineAssets,
        totalDuration timelineAssets = a.startTime + effectiveDuration a) ∧
    totalDuration [] = 15 := by
  obtain ⟨h1, h2, h3⟩ :=
    foldl_max_characterization (fun a => a.startTime + effectiveDuration a) timelineAssets 0
  refine ⟨le_max_left _ _, ?_, ?_, by simp [totalDuration]⟩
  · intro a ha
    exact le_trans (h2 a ha) (le_max_right _ _)
  · rcases max_choice 15
      (timelineAssets.foldl (fun m a => max m (a.startTime + effectiveDuration a)) 0) with
      hm | hm
    · exact Or.inl hm
    · rcases h3 with h3 | ⟨a, ha, h3⟩
      · refine Or.inl ?_
        rw [totalDuration, h3]
        simp
      · exact Or.inr ⟨a, ha, by rw [totalDuration, hm, h3]⟩

/-- Witness for C5: on the Scenario B timeline the total duration is at
least 15 and bounds `startTime + effectiveDuration` of the second clip. -/
theorem c5_witness :
    15 ≤ totalDuration [clipB1, clipB2] ∧
    clipB2.startTime + effectiveDuration clipB2 ≤ totalDuration [clipB1, clipB2] := by
  have h := c5_totalDuration [clipB1, clipB2]
  exact ⟨h.1, h.2.1 clipB2 (by simp)⟩

/-- **C6 counterexample.** With an empty timeline (`totalDuration = 15`),
pressing play, dragging the playhead to `15 - 1/120`, and letting one tick
fire drives the playhead to `15 + 1/120 > totalDuration`: the claimed
invariant `playheadPosition ≤ totalDuration` fails, because a tick from any
position strictly below `totalDuration` adds a full 1/60 without clamping. -/
theorem c6_counterexample :
    (applyOps (totalDuration []) initTransport
        [.togglePlay, .drag (15 - 1/120), .tick]).currentTime >
      totalDuration [] := by
  have ht : totalDuration [] = 15 := by simp [totalDuration]
  rw [ht]
  show (applyOp 15 (applyOp 15 (applyOp 15 initTransport .togglePlay)
      (.drag (15 - 1/120))) .tick).currentTime > 15
  have h1 : applyOp 15 initTransport .togglePlay = ⟨true, 0⟩ := by
    simp [applyOp, initTransport]
  have h2 : applyOp 15 ⟨true, 0⟩ (.drag (15 - 1/120)) = ⟨true, 15 - 1/120⟩ := by
    rw [applyOp, handlePlayheadDrag]
    have hmm : min (max 0 (15 - 1/120 : ℚ)) 15 = 15 - 1/120 := by
      rw [max_eq_right (by norm_num), min_eq_left (by norm_num)]
    rw [hmm]
  have h3 : applyOp 15 ⟨true, 15 - 1/120⟩ .tick = ⟨true, 15 - 1/120 + 1/60⟩ := by
    rw [applyOp]
    simp only [if_pos]
    rw [tick, if_neg (by norm_num)]
  rw [h1, h2, h3]
  norm_num

/-- **C6 (amended).** In every state reachable from the initial transport
(by play/pause toggles, clock ticks, playhead drags and seek-to-0), for any
fixed `totalDuration ≥ 15`, the playhead satisfies
`0 ≤ playheadPosition < totalDuration + 1/60`: the position can exceed
`totalDuration` by strictly less than one tick, but no more. -/
theorem c6_amended (D : ℚ) (ops : List TransportOp) (hD : 15 ≤ D) :
    0 ≤ (applyOps D initTransport ops).currentTime ∧
    (applyOps D initTransport ops).currentTime < D + 1/60 := by
  have hD0 : (0 : ℚ) ≤ D := le_trans (by norm_num) hD
  suffices h : ∀ (s : Transport), 0 ≤ s.currentTime → s.currentTime < D + 1/60 →
      0 ≤ (applyOps D s ops).currentTime ∧ (applyOps D s ops).currentTime < D + 1/60 by
    exact h initTransport le_rfl (by rw [initTransport]; linarith)
  induction ops with
  | nil => exact fun s h0 h1 => ⟨h0, h1⟩
  | cons op ops ih =>
    intro s h0 h1
    rw [applyOps, List.foldl_cons]
    have step : 0 ≤ (applyOp D s op).currentTime ∧
        (applyOp D s op).currentTime < D + 1/60 := by
      match op with
      | .togglePlay => exact ⟨h0, h1⟩
      | .seekZero =>
        refine ⟨le_rfl, ?_⟩
        show (0 : ℚ) < D + 1/60
        linarith
      | .drag t =>
        refine ⟨le_min (le_max_left 0 t) hD0, ?_⟩
        calc min (max 0 t) D ≤ D := min_le_right _ _
          _ < D + 1/60 := by linarith
      | .tick =>
        rw [applyOp]
        by_cases hp : s.isPlaying
        · rw [if_pos hp, tick]
          by_cases hge : s.currentTime ≥ D
          · rw [if_pos hge]
            constructor
            · exact le_rfl
            · show (0 : ℚ) < D + 1/60
              linarith
          · rw [if_neg hge]
            push_neg at hge
            constructor
            · show 0 ≤ s.currentTime + 1/60
              linarith
            · show s.currentTime + 1/60 < D + 1/60
              linarith
        · rw [if_neg hp]
          exact ⟨h0, h1⟩
    exact ih (applyOp D s op) step.1 step.2

/-- Witness for C6 (amended), at `D = 15` after a toggle-play, a drag past
the end, and two ticks: the playhead stays in `[0, 15 + 1/60)`. -/
theorem c6_witness :
    0 ≤ (applyOps 15 initTransport
        [.togglePlay, .drag 99, .tick, .tick]).currentTime ∧
    (applyOps 15 initTransport
        [.togglePlay, .drag 99, .tick, .tick]).currentTime < 15 + 1/60 :=
  c6_amended 15 [.togglePlay, .drag 99, .tick, .tick] le_rfl

/-- **C7.** A drop whose payload fails to parse, or parses to a record that
is not a `libraryAsset` payload, or names no known library asset, leaves
both state collections untouched; the `catch` guarantees the handler
itself always returns normally (no exception escapes). -/
theorem c7_malformed_drop_is_noop (parsed : Except String DropPayload)
    (resolve : Except String (Option ℚ)) (newTimelineId : String)
    (dropTime : ℚ) (st : DropState)
    (h : (∃ e, parsed = .error e) ∨
      ∃ p, parsed = .ok p ∧ (p.ptype ≠ "libraryAsset" ∨
        st.libraryAssets.find? (fun a => a.id = p.assetId) = none)) :
    handleDropOnTimeline parsed resolve newTimelineId dropTime st = st := by
  rcases h with ⟨e, rfl⟩ | ⟨p, rfl, hp⟩
  · rfl
  · rw [handleDropOnTimeline]
    have hbody : handleDropBody (.ok p) resolve newTimelineId dropTime st = .ok st := by
      show (if p.ptype = "libraryAsset" then _ else Except.ok st) = Except.ok st
      rcases hp with hp | hfind
      · rw [if_neg hp]
      · by_cases hty : p.ptype = "libraryAsset"
        · rw [if_pos hty]
          show (match st.libraryAssets.find? (fun a => a.id = p.assetId) with
            | some assetToAdd => _ | none => Except.ok st) = Except.ok st
          rw [hfind]
        · rw [if_neg hty]
    rw [hbody]

/-- Witness for C7 (Scenario E): the payload string `"not json"` makes
`JSON.parse` throw (modelled as a parse error), and the handler returns the
state unchanged. -/
theorem c7_witness :
    handleDropOnTimeline (.error "Unexpected token: not json")
      (.ok (some 5)) "t9" 3
      ⟨[⟨"a1", .video, "u1", some 5⟩], [clipB1]⟩ =
    ⟨[⟨"a1", .video, "u1", some 5⟩], [clipB1]⟩ :=
  c7_malformed_drop_is_noop _ _ _ _ _ (Or.inl ⟨_, rfl⟩)

/-- **C8.** When the dropped library asset has no duration and resolution
fails (the metadata promise rejects, or resolution yields no number), the
body surfaces an error and the `catch` leaves the timeline exactly as it
was: no clip is created. -/
theorem c8_duration_failure_atomic (p : DropPayload)
    (resolve : Except String (Option ℚ)) (newTimelineId : String)
    (dropTime : ℚ) (st : DropState) (assetToAdd : MediaAsset)
    (hty : p.ptype = "libraryAsset")
    (hfind : st.libraryAssets.find? (fun a => a.id = p.assetId) = some assetToAdd)
    (hdur : assetToAdd.duration = none)
    (hres : (∃ e, resolve = .error e) ∨ resolve = .ok none) :
    (∃ msg, handleDropBody (.ok p) resolve newTimelineId dropTime st = .error msg) ∧
    handleDropOnTimeline (.ok p) resolve newTimelineId dropTime st = st := by
  have hbody : ∃ msg,
      handleDropBody (.ok p) resolve newTimelineId dropTime st = .error msg := by
    rcases hres with ⟨e, rfl⟩ | rfl
    · refine ⟨e, ?_⟩
      simp [handleDropBody, hty, hfind, resolveDropDuration, hdur]
    · refine ⟨"Could not determine asset duration.", ?_⟩
      simp [handleDropBody, hty, hfind, resolveDropDuration, hdur]
  obtain ⟨msg, hmsg⟩ := hbody
  refine ⟨⟨msg, hmsg⟩, ?_⟩
  rw [handleDropOnTimeline, hmsg]

/-- Witness for C8: a library asset with unresolved duration whose metadata
load rejects produces an error body and an unchanged state. -/
theorem c8_witness :
    (∃ msg, handleDropBody (.ok ⟨"libraryAsset", "a7"⟩)
        (.error "Failed to load media metadata for u7") "t9" 3
        ⟨[⟨"a7", .video, "u7", none⟩], [clipB1]⟩ = .error msg) ∧
    handleDropOnTimeline (.ok ⟨"libraryAsset", "a7"⟩)
        (.error "Failed to load media metadata for u7") "t9" 3
        ⟨[⟨"a7", .video, "u7", none⟩], [clipB1]⟩ =
      ⟨[⟨"a7", .video, "u7", none⟩], [clipB1]⟩ :=
  c8_duration_failure_atomic ⟨"libraryAsset", "a7"⟩ _ _ _ _ ⟨"a7", .video, "u7", none⟩
    rfl (by simp) rfl (Or.inl ⟨_, rfl⟩)

/-- **C9 (code bug).** Dragging an existing clip emits the payload
`{type: 'timelineAsset', assetId, timelineId}` (`CenterPanel`'s
`handleDragStart`), but `handleDropOnTimeline` only acts on
`type === 'libraryAsset'`: dropping the clip at pointer time 3 leaves the
state bit-for-bit unchanged — the clip's `startTime` stays 0 instead of
being recomputed from the pointer position, contradicting the specified
reposition behavior. -/
theorem c9_timeline_payload_ignored :
    handleDropOnTimeline (.ok ⟨"timelineAsset", "a1"⟩) (.ok (some 5)) "t9" 3
        ⟨[⟨"a1", .video, "u1", some 5⟩], [clipB1]⟩ =
      ⟨[⟨"a1", .video, "u1", some 5⟩], [clipB1]⟩ ∧
    clipB1.startTime = 0 := by
  constructor
  · rfl
  · rfl

/-- **C10.** `handleUpdateTimelineAsset timelineId updates` re-orders but
never rewrites the untouched clips: the result is a permutation of the
field-merged list, every clip with a different `timelineId` survives
unchanged, and if no clip carries the given `timelineId` the (sorted)
collection comes back element-wise identical. -/
theorem c10_update_frame (timelineId : String) (updates : TimelineAssetUpdate)
    (prev : List TimelineAsset) :
    (handleUpdateTimelineAsset timelineId updates prev).Perm
      (prev.map fun asset =>
        if asset.timelineId = timelineId then applyUpdates asset updates else asset) ∧
    (∀ a ∈ prev, a.timelineId ≠ timelineId →
      a ∈ handleUpdateTimelineAsset timelineId updates prev) ∧
    (prev.Sorted startLE → (∀ a ∈ prev, a.timelineId ≠ timelineId) →
      handleUpdateTimelineAsset timelineId updates prev = prev) := by
  refine ⟨List.perm_insertionSort startLE _, ?_, ?_⟩
  · intro a ha hne
    rw [handleUpdateTimelineAsset, sortByStart, List.mem_insertionSort]
    refine List.mem_map.2 ⟨a, ha, ?_⟩
    rw [if_neg hne]
  · intro hsorted hnone
    have hmap : (prev.map fun asset =>
        if asset.timelineId = timelineId then applyUpdates asset updates else asset) =
        prev := by
      rw [List.map_congr_left fun a ha => if_neg (hnone a ha)]
      exact List.map_id prev
    rw [handleUpdateTimelineAsset, hmap, sortByStart]
    exact hsorted.insertionSort_eq

/-- Witness for C10: updating a `timelineId` present on no clip of the
sorted Scenario B timeline returns it element-wise identical, and both
clips survive an update addressed to `"t1"` unchanged apart from the
targeted one. -/
theorem c10_witness :
    handleUpdateTimelineAsset "zz" { startTime := some 9 } [clipB1, clipB2] =
      [clipB1, clipB2] ∧
    clipB2 ∈ handleUpdateTimelineAsset "t1" { startTime := some 9 } [clipB1, clipB2] := by
  constructor
  · exact (c10_update_frame "zz" { startTime := some 9 } [clipB1, clipB2]).2.2
      (by simp [List.sorted_cons, startLE, clipB1, clipB2])
      (by
        intro a ha
        rcases List.mem_cons.1 ha with rfl | ha
        · simp [clipB1]
        · simp only [List.mem_singleton] at ha
          subst ha
          simp [clipB2])
  · exact (c10_update_frame "t1" { startTime := some 9 } [clipB1, clipB2]).2.1 clipB2
      (by simp) (by simp [clipB2])

end KijkoCut
